import Mathlib

/-!
Shallow embedding of the dashboard client (`src/static/app.js`): the pipeline
status poller, the financial integrity analyzer, and the provenance/formatting
policy.  JavaScript numbers are modelled as exact rationals (`ℚ`), `null` and
`undefined` as `Option.none`, JS arrays of numbers-or-null as
`List (Option ℚ)`, and JS objects used as string maps as association lists.
-/

namespace App

/-- JS truthiness for an optional string: `undefined`, `null` and `""` are
falsy, every other string is truthy. -/
def jsFalsy (s : Option String) : Bool :=
  match s with
  | none => true
  | some str => decide (str = "")

/-- JS `a || b` on optional strings: returns `b` when `a` is falsy. -/
def jsOrOpt (a b : Option String) : Option String :=
  if jsFalsy a then b else a

/-- JS array read `arr[i]`: the element when in range (itself possibly
`null` = `none`), `undefined` = `none` out of range. -/
def jsGet (l : List (Option ℚ)) (i : ℕ) : Option ℚ :=
  l.getD i none

/-- JS `Math.abs`, written with core rational operations. -/
def jsAbs (q : ℚ) : ℚ :=
  if q < 0 then -q else q

/-- JS `Number.prototype.toFixed(d)` on a nonnegative rational, modelled as
exact decimal rounding (round half up), the idealisation of the binary
float rounding the source relies on.  The rounded value
`⌊q * 10^d + 1/2⌋` is computed on the reduced numerator and denominator in
`ℕ` so that the kernel can evaluate it. -/
def jsToFixed (q : ℚ) (d : ℕ) : String :=
  let n : ℕ := (2 * q.num.toNat * 10 ^ d + q.den) / (2 * q.den)
  if d = 0 then toString n
  else
    let p : ℕ := 10 ^ d
    let fs := toString (n % p)
    toString (n / p) ++ "." ++ String.mk (List.replicate (d - fs.length) '0') ++ fs

/-- `fmtMoney` from app.js lines 41-49: `--` for null/undefined, `$0` for 0,
parenthesised for negatives, `$x.xM` at or above 1000, else `$xK`. -/
def fmtMoney (val : Option ℚ) : String :=
  match val with
  | none => "--"
  | some v =>
    if v = 0 then "$0"
    else
      let a := jsAbs v
      let sign := if v < 0 then "(" else ""
      let e := if v < 0 then ")" else ""
      if a ≥ 1000 then sign ++ "$" ++ jsToFixed (a / 1000) 1 ++ "M" ++ e
      else sign ++ "$" ++ jsToFixed a 0 ++ "K" ++ e

/-- One character of `escapeHtml` (app.js lines 83-88): the DOM
textContent → innerHTML round trip escapes exactly `&`, `<` and `>`. -/
def escapeHtmlChar (c : Char) : String :=
  if c = '&' then "&amp;"
  else if c = '<' then "&lt;"
  else if c = '>' then "&gt;"
  else String.mk [c]

/-- `escapeHtml` from app.js: falsy input gives `""`, otherwise the
character-wise HTML escape of the string. -/
def escapeHtml (t : Option String) : String :=
  if jsFalsy t then ""
  else String.join ((t.getD "").toList.map escapeHtmlChar)

/-- `moneyCell` from app.js lines 90-95: null renders `--`; the `(est.)`
suffix is appended exactly when the source tag is the literal string
`derived`; negatives get the `negative` class. -/
def moneyCell (val : Option ℚ) (source : Option String) : String :=
  match val with
  | none => "<td>--</td>"
  | some v =>
    let suffix := if source = some "derived" then " <span class=\"derived-tag\">(est.)</span>" else ""
    if v < 0 then "<td class=\"negative\">" ++ fmtMoney (some v) ++ suffix ++ "</td>"
    else "<td>" ++ fmtMoney (some v) ++ suffix ++ "</td>"

/-- `getCapexMethodTooltip` from app.js lines 114-123: the fixed five-entry
derivation-method table with a generic fallback. -/
def getCapexMethodTooltip (source : String) : String :=
  if source = "derived:capex_revenue_ratio" then "Estimated using CapEx-to-Revenue ratio from known years"
  else if source = "derived:flat_last_known" then "Estimated using most recent known CapEx value (flat)"
  else if source = "derived:depreciation_ratio" then "Estimated as 25% of Depreciation (maintenance assumption)"
  else if source = "derived:industry_default" then "Estimated using 0.5% of Revenue industry default"
  else if source = "derived" then "Estimated value — not directly from document"
  else "Estimated value — not directly from document"

/-- `capexCell` from app.js lines 101-112: null → `--`; falsy or `direct`
source → plain cell; any other source → an `(est.)` badge whose `title` is
the method tooltip. -/
def capexCell (val : Option ℚ) (source : Option String) : String :=
  match val with
  | none => "<td>--</td>"
  | some v =>
    let formatted := fmtMoney (some v)
    if jsFalsy source ∨ source = some "direct" then
      if v < 0 then "<td class=\"negative\">" ++ formatted ++ "</td>"
      else "<td>" ++ formatted ++ "</td>"
    else
      let tooltip := getCapexMethodTooltip (source.getD "")
      let badge := " <span class=\"derived-badge\" title=\"" ++ tooltip ++ "\">(est.)</span>"
      if v < 0 then "<td class=\"negative\">" ++ formatted ++ badge ++ "</td>"
      else "<td>" ++ formatted ++ badge ++ "</td>"

/-- `getSource` from app.js lines 126-129:
`sources[key + '_' + index] || sources[key] || null`. -/
def getSource (sources : Option (List (String × String))) (key : String) (index : ℕ) : Option String :=
  match sources with
  | none => none
  | some src =>
    jsOrOpt (src.lookup (key ++ "_" ++ toString index)) (jsOrOpt (src.lookup key) none)

/-- Warning severity, `level` field of a warning object. -/
inductive WarningLevel where
  | error
  | info
deriving DecidableEq, Repr

/-- A data-integrity warning as produced by `renderIntegrityWarnings`. -/
structure Warning where
  level : WarningLevel
  message : String
deriving DecidableEq, Repr

/-- The `financials` object fields read by the integrity analyzer.  Each
field may be absent (`none`), and each present array holds
numbers-or-null. -/
structure Financials where
  net_revenue_hist : Option (List (Option ℚ)) := none
  gross_profit_hist : Option (List (Option ℚ)) := none
  sga_hist : Option (List (Option ℚ)) := none
  adj_ebitda_hist : Option (List (Option ℚ)) := none
  depreciation_hist : Option (List (Option ℚ)) := none
deriving DecidableEq, Repr

/-- The extraction-result fields read by the integrity analyzer
(`_corrections_applied` and `_derivations_applied` are written without the
leading underscore). -/
structure Extraction where
  financials : Option Financials := none
  corrections_applied : Option (List String) := none
  derivations_applied : Option (List String) := none
deriving DecidableEq, Repr

/-- `const f = ext.financials || {}` (app.js line 392). -/
def finOf (ext : Extraction) : Financials := ext.financials.getD {}

/-- `f.net_revenue_hist || []` (app.js line 397). -/
def revHistOf (ext : Extraction) : List (Option ℚ) := (finOf ext).net_revenue_hist.getD []

/-- `f.gross_profit_hist || []` (app.js line 407). -/
def gpOf (ext : Extraction) : List (Option ℚ) := (finOf ext).gross_profit_hist.getD []

/-- `f.sga_hist || []` (app.js line 408). -/
def sgaOf (ext : Extraction) : List (Option ℚ) := (finOf ext).sga_hist.getD []

/-- `f.adj_ebitda_hist || []` (app.js line 409). -/
def ebitdaOf (ext : Extraction) : List (Option ℚ) := (finOf ext).adj_ebitda_hist.getD []

/-- `f.depreciation_hist || []` (app.js line 423). -/
def depOf (ext : Extraction) : List (Option ℚ) := (finOf ext).depreciation_hist.getD []

/-- Check 1 (app.js lines 396-404): count the explicitly-null entries of the
whole historical revenue array; if positive, one error warning. -/
def revenueWarnings (ext : Extraction) : List Warning :=
  let cnt := ((revHistOf ext).filter (fun v => v.isNone)).length
  if cnt > 0 then
    [⟨WarningLevel.error,
      "Revenue missing for " ++ toString cnt ++ " of 3 historical year(s). Margins and growth rates cannot be calculated."⟩]
  else []

/-- Check 2 body for one year index (app.js lines 410-420): when gross
profit, SG&A and EBITDA are all non-null and `gp - sga > ebitda`, one error
warning. -/
def oiCheckAt (ext : Extraction) (i : ℕ) : Option Warning :=
  match jsGet (gpOf ext) i, jsGet (sgaOf ext) i, jsGet (ebitdaOf ext) i with
  | some g, some s, some e =>
    let oi := g - s
    if oi > e then
      some ⟨WarningLevel.error,
        "Year " ++ toString (i + 1) ++ ": Operating Income (" ++ fmtMoney (some oi) ++
          ") exceeds EBITDA (" ++ fmtMoney (some e) ++ ") — rows may be swapped"⟩
    else none
  | _, _, _ => none

/-- Check 2, all three historical positions in order. -/
def oiWarnings (ext : Extraction) : List Warning :=
  (List.range 3).filterMap (oiCheckAt ext)

/-- Check 3 body for one year index (app.js lines 424-431): when
depreciation and EBITDA are both non-null and within 15% relative
tolerance, one error warning. -/
def depCheckAt (ext : Extraction) (i : ℕ) : Option Warning :=
  match jsGet (depOf ext) i, jsGet (ebitdaOf ext) i with
  | some d, some e =>
    if jsAbs (d - e) < jsAbs e * 0.15 then
      some ⟨WarningLevel.error,
        "Year " ++ toString (i + 1) ++ ": Depreciation (" ++ fmtMoney (some d) ++
          ") nearly equals EBITDA (" ++ fmtMoney (some e) ++ ") — likely a copy error"⟩
    else none
  | _, _ => none

/-- Check 3, all three historical positions in order. -/
def depWarnings (ext : Extraction) : List Warning :=
  (List.range 3).filterMap (depCheckAt ext)

/-- Check 4 (app.js lines 433-439): one info warning when any corrections
or derivations were applied upstream. -/
def provenanceWarnings (ext : Extraction) : List Warning :=
  let corrections := ext.corrections_applied.getD []
  let derivations := ext.derivations_applied.getD []
  if corrections.length > 0 ∨ derivations.length > 0 then
    [⟨WarningLevel.info,
      toString corrections.length ++ " auto-correction(s) and " ++ toString derivations.length ++ " derivation(s) applied"⟩]
  else []

/-- The full warning sequence of `renderIntegrityWarnings` (app.js lines
390-439), in the source's push order: check 1, check 2, check 3, check 4. -/
def integrityWarnings (ext : Extraction) : List Warning :=
  revenueWarnings ext ++ oiWarnings ext ++ depWarnings ext ++ provenanceWarnings ext

/-- The body of a `GET /api/documents/id/status` response as read by the
poller; every field may be absent. -/
structure StatusData where
  ocr_status : Option String := none
  extraction_status : Option String := none
  error_message : Option String := none
  extraction_error : Option String := none
  company_name : Option String := none
  filename : Option String := none
deriving DecidableEq, Repr

/-- Client-side state of one document's poller: whether its repeating timer
is still scheduled, whether its id is still a key of the `activePollers`
registry, how many times `loadDashboard()` has been triggered by it, and
the innerHTML last written to the status element. -/
structure PollerState where
  timerActive : Bool := true
  registered : Bool := true
  refreshCount : ℕ := 0
  label : Option String := none
deriving DecidableEq, Repr

/-- Label written when `ocr_status == processing` (app.js line 217). -/
def stage1Label : String :=
  "<span class=\"spinner\"></span> <strong>Stage 1/2:</strong> Extracting text from PDF..."

/-- Label written when OCR failed (app.js line 219). -/
def ocrFailedLabel (data : StatusData) : String :=
  "<span style=\"color:#ef4444;\">&#10007; OCR Failed: " ++
    escapeHtml (jsOrOpt data.error_message (some "Unknown")) ++ "</span>"

/-- Label written when OCR completed and extraction is processing (app.js
line 223). -/
def stage2AnalyzingLabel : String :=
  "<span class=\"spinner\"></span> <strong>Stage 2/2:</strong> AI analyzing financials..."

/-- Label written on extraction success (app.js line 225). -/
def successLabel (data : StatusData) : String :=
  "<span style=\"color:#22c55e;\">&#10003; Analysis Complete &mdash; " ++
    escapeHtml (jsOrOpt data.company_name data.filename) ++ "</span>"

/-- Label written when extraction failed after OCR (app.js line 228). -/
def extractionFailedLabel (data : StatusData) : String :=
  "<span style=\"color:#eab308;\">&#9888; OCR done but extraction failed: " ++
    escapeHtml (jsOrOpt data.extraction_error (some "Unknown")) ++ "</span>"

/-- Label written when OCR completed and extraction is absent or pending
(app.js line 231). -/
def stage2StartingLabel : String :=
  "<span class=\"spinner\"></span> <strong>Stage 2/2:</strong> Starting AI extraction..."

/-- The second `if`/`else if` chain of the poll tick (app.js lines
222-232), entered whenever the first chain did not `return`. -/
def pollSecondChain (st : PollerState) (data : StatusData) : PollerState :=
  if data.ocr_status = some "completed" ∧ data.extraction_status = some "processing" then
    { st with label := some stage2AnalyzingLabel }
  else if data.extraction_status = some "completed" then
    { st with label := some (successLabel data),
              timerActive := false, registered := false, refreshCount := st.refreshCount + 1 }
  else if data.extraction_status = some "failed" then
    { st with label := some (extractionFailedLabel data),
              timerActive := false, registered := false, refreshCount := st.refreshCount + 1 }
  else if data.ocr_status = some "completed" ∧ (jsFalsy data.extraction_status ∨ data.extraction_status = some "pending") then
    { st with label := some stage2StartingLabel }
  else st

/-- The processing phase of one `startPipelinePolling` callback (app.js
lines 211-233): everything the `async` tick body does once its fetch has
settled.  `anchorPresent` is whether `document.getElementById` still
finds the status element at that moment; `fetched` is `none` on a
network error (caught and logged, state untouched).  Note that when the
anchor is gone the code only clears the interval: the `activePollers`
entry is not deleted.  The first chain's `ocr_status` branches either
`return` (failed) or fall through to the second chain (processing and
all other values).  This phase does not test whether the timer is still
scheduled: a callback that started its fetch before a `clearInterval`
still runs it. -/
def pollProcess (st : PollerState) (anchorPresent : Bool) (fetched : Option StatusData) : PollerState :=
  match fetched with
  | none => st
  | some data =>
    if anchorPresent = false then { st with timerActive := false }
    else if data.ocr_status = some "processing" then
      pollSecondChain { st with label := some stage1Label } data
    else if data.ocr_status = some "failed" then
      { st with label := some (ocrFailedLabel data),
                timerActive := false, registered := false, refreshCount := st.refreshCount + 1 }
    else
      pollSecondChain st data

/-- One synchronous tick of `startPipelinePolling` (app.js lines 209-234):
the callback fires only while the timer is scheduled (`clearInterval`
stops future invocations) and its fetch settles before anything else
happens, so firing and processing are one atomic step. -/
def pollTick (st : PollerState) (anchorPresent : Bool) (fetched : Option StatusData) : PollerState :=
  if st.timerActive = false then st
  else pollProcess st anchorPresent fetched

/-- The observable input of one tick: anchor existence and fetch result. -/
structure TickInput where
  anchorPresent : Bool
  fetched : Option StatusData
deriving DecidableEq, Repr

/-- A whole polling lifecycle: the poller state after any sequence of
ticks. -/
def runPoller (st : PollerState) : List TickInput → PollerState
  | [] => st
  | t :: ts => runPoller (pollTick st t.anchorPresent t.fetched) ts

/-- State of the poller right after `startPipelinePolling(docId)` returns:
timer scheduled, registered in `activePollers`, no refresh yet. -/
def initPollerState : PollerState := {}

/-- A terminal status response: one of the three cases after which the
poller stops (ocr failed, extraction completed, extraction failed). -/
def TerminalStatus (data : StatusData) : Prop :=
  data.ocr_status = some "failed" ∨ data.extraction_status = some "completed" ∨
    data.extraction_status = some "failed"

/-- Poller state together with the number of tick callbacks that have
started their fetch but not yet resumed — the overlapping in-flight
requests the source does not suppress. -/
structure AsyncPollerState where
  core : PollerState
  pending : ℕ
deriving DecidableEq, Repr

/-- An event of the asynchronous lifecycle: either the interval fires
(starting a fetch) or one in-flight fetch settles and its callback
resumes, seeing the anchor state and response of that moment. -/
inductive PollEvent where
  | fire
  | resolve (anchorPresent : Bool) (fetched : Option StatusData)
deriving DecidableEq, Repr

/-- Asynchronous small-step semantics of the tick callback.  `fire` only
happens while the timer is scheduled (`clearInterval` stops future
invocations) and merely starts a fetch; `resolve` runs the processing
phase of one already-started callback — regardless of whether the timer
has been cancelled in the meantime, exactly as an `async` body resumed
after `clearInterval` does. -/
def pollStep (st : AsyncPollerState) : PollEvent → AsyncPollerState
  | PollEvent.fire =>
      if st.core.timerActive then { st with pending := st.pending + 1 } else st
  | PollEvent.resolve a f =>
      if st.pending = 0 then st
      else { core := pollProcess st.core a f, pending := st.pending - 1 }

/-- The poller state after any sequence of asynchronous events. -/
def runPollerAsync (st : AsyncPollerState) : List PollEvent → AsyncPollerState
  | [] => st
  | e :: es => runPollerAsync (pollStep st e) es

/-- The event trace of a lifecycle with no overlapping requests: each
fetch settles and is processed before the next interval fire. -/
def sequentialTrace : List TickInput → List PollEvent
  | [] => []
  | t :: ts => PollEvent.fire :: PollEvent.resolve t.anchorPresent t.fetched :: sequentialTrace ts

/-- An overlapping lifecycle: two ticks fire while both responses are
still in flight, then both responses arrive terminal.  The anchor is
still present at both resolutions because a terminal update only
rewrites the status element's innerHTML — it never removes
`upload-status-docId` from the document. -/
def overlapTrace : List PollEvent :=
  [PollEvent.fire, PollEvent.fire,
   PollEvent.resolve true (some { extraction_status := some "completed" }),
   PollEvent.resolve true (some { extraction_status := some "completed" })]

/-- Lifecycle invariant used for the at-most-one-refresh property: an
active timer means no refresh has fired yet, and never more than one
refresh fires. -/
def RefreshInv (st : PollerState) : Prop :=
  (st.timerActive = true → st.refreshCount = 0) ∧ st.refreshCount ≤ 1

/-- C3 and C3-witness input: a historical revenue array of length 4 whose
only null sits past the first 3 positions. -/
def revCexExtraction : Extraction :=
  { financials := some { net_revenue_hist := some [some 1, some 2, some 3, none] } }

/-- C4 witness input: the spec's own scenario, EBITDA 1000/1000/1000 and
depreciation 950/2000/null. -/
def depWitnessExtraction : Extraction :=
  { financials := some
      { adj_ebitda_hist := some [some 1000, some 1000, some 1000],
        depreciation_hist := some [some 950, some 2000, none] } }

/-- C5 witness input: gross profit 100, SG&A 10, EBITDA 50 in year 1. -/
def oiWitnessExtraction : Extraction :=
  { financials := some
      { gross_profit_hist := some [some 100, none, none],
        sga_hist := some [some 10, none, none],
        adj_ebitda_hist := some [some 50, none, none] } }

lemma jsAbs_eq_abs (q : ℚ) : jsAbs q = |q| := by
  unfold jsAbs
  split
  · exact (abs_of_neg (by assumption)).symm
  · exact (abs_of_nonneg (le_of_not_lt (by assumption))).symm

lemma pollSecondChain_inv (st : PollerState) (data : StatusData)
    (h0 : st.refreshCount = 0) : RefreshInv (pollSecondChain st data) := by
  unfold pollSecondChain RefreshInv
  split
  · exact ⟨fun _ => h0, by simp [h0]⟩
  · split
    · exact ⟨fun hc => by simp at hc, by simp [h0]⟩
    · split
      · exact ⟨fun hc => by simp at hc, by simp [h0]⟩
      · split
        · exact ⟨fun _ => h0, by simp [h0]⟩
        · exact ⟨fun _ => h0, by simp [h0]⟩

lemma pollProcess_inv (st : PollerState) (a : Bool) (f : Option StatusData)
    (h0 : st.refreshCount = 0) : RefreshInv (pollProcess st a f) := by
  unfold pollProcess
  match f with
  | none => exact ⟨fun _ => h0, by simp [h0]⟩
  | some data =>
    dsimp only
    split
    · exact ⟨fun hc => by simp at hc, by simp [h0]⟩
    · split
      · exact pollSecondChain_inv _ _ h0
      · split
        · exact ⟨fun hc => by simp at hc, by simp [h0]⟩
        · exact pollSecondChain_inv _ _ h0

lemma pollTick_inv (st : PollerState) (a : Bool) (f : Option StatusData)
    (h : RefreshInv st) : RefreshInv (pollTick st a f) := by
  unfold pollTick
  split
  · exact h
  · rename_i hact
    have hact' : st.timerActive = true := by
      cases hta : st.timerActive
      · exact absurd hta hact
      · rfl
    exact pollProcess_inv _ _ _ (h.1 hact')

lemma runPoller_inv (ticks : List TickInput) (st : PollerState)
    (h : RefreshInv st) : RefreshInv (runPoller st ticks) := by
  induction ticks generalizing st with
  | nil => exact h
  | cons t ts ih => exact ih _ (pollTick_inv _ _ _ h)

lemma runPollerAsync_sequential (ticks : List TickInput) (st : PollerState) :
    runPollerAsync ⟨st, 0⟩ (sequentialTrace ticks) = ⟨runPoller st ticks, 0⟩ := by
  induction ticks generalizing st with
  | nil => rfl
  | cons t ts ih =>
    cases hta : st.timerActive
    · have hfire : pollStep ⟨st, 0⟩ PollEvent.fire = ⟨st, 0⟩ := by
        simp [pollStep, hta]
      have hres : pollStep ⟨st, 0⟩ (PollEvent.resolve t.anchorPresent t.fetched) = ⟨st, 0⟩ := by
        simp [pollStep]
      have htick : pollTick st t.anchorPresent t.fetched = st := by
        simp [pollTick, hta]
      simp only [sequentialTrace, runPollerAsync, hfire, hres, runPoller, htick]
      exact ih st
    · have hfire : pollStep ⟨st, 0⟩ PollEvent.fire = ⟨st, 1⟩ := by
        simp [pollStep, hta]
      have hres : pollStep ⟨st, 1⟩ (PollEvent.resolve t.anchorPresent t.fetched) =
          ⟨pollProcess st t.anchorPresent t.fetched, 0⟩ := by
        simp [pollStep]
      have htick : pollTick st t.anchorPresent t.fetched =
          pollProcess st t.anchorPresent t.fetched := by
        simp [pollTick, hta]
      simp only [sequentialTrace, runPollerAsync, hfire, hres, runPoller, htick]
      exact ih _

lemma oiCheckAt_level (ext : Extraction) (i : ℕ) (w : Warning)
    (hw : oiCheckAt ext i = some w) : w.level = WarningLevel.error := by
  unfold oiCheckAt at hw
  split at hw
  · dsimp only at hw
    split at hw
    · cases hw; rfl
    · cases hw
  · cases hw

lemma depCheckAt_level (ext : Extraction) (i : ℕ) (w : Warning)
    (hw : depCheckAt ext i = some w) : w.level = WarningLevel.error := by
  unfold depCheckAt at hw
  split at hw
  · split at hw
    · cases hw; rfl
    · cases hw
  · cases hw

end App

namespace App

/-- C1: false as stated.  With `ocr_status = processing` and
`extraction_status = completed` the tick sets the Stage-1 label and then
still runs the terminal-success branch of the second chain: the stage
derivation is not a single first-match-wins precedence. -/
theorem stage1_terminal_overlap_cex :
    (pollTick initPollerState true
        (some { ocr_status := some "processing", extraction_status := some "completed" })).timerActive = false
    ∧ (pollTick initPollerState true
        (some { ocr_status := some "processing", extraction_status := some "completed" })).refreshCount = 1
    ∧ (pollTick initPollerState true
        (some { ocr_status := some "processing", extraction_status := some "completed" })).label ≠ some stage1Label := by
  decide

/-- C1 (amended): if `ocr_status = processing` and `extraction_status` is
neither `completed` nor `failed`, the tick reports Stage 1/2 and performs
no terminal action: timer, registry entry and refresh count are
untouched. -/
theorem stage1_no_terminal_when_extraction_not_terminal (st : PollerState) (data : StatusData)
    (hact : st.timerActive = true)
    (hocr : data.ocr_status = some "processing")
    (hc : data.extraction_status ≠ some "completed")
    (hf : data.extraction_status ≠ some "failed") :
    pollTick st true (some data) = { st with label := some stage1Label } := by
  simp [pollTick, pollProcess, pollSecondChain, hact, hocr, hc, hf]

/-- C1 witness: the spec's own scenario, `ocr_status=processing` with
`extraction_status` undefined. -/
theorem stage1_witness :
    pollTick initPollerState true (some { ocr_status := some "processing" }) =
      { initPollerState with label := some stage1Label } :=
  stage1_no_terminal_when_extraction_not_terminal initPollerState
    { ocr_status := some "processing" } rfl rfl (by decide) (by decide)

/-- C2: false as stated.  Two ticks fire while both fetches are in
flight; the first terminal response cancels the timer and fires the
refresh, but the second callback was already started, the anchor still
exists (a terminal update only rewrites innerHTML), so its processing
phase runs the terminal branch again and the refresh fires twice in one
document's lifecycle. -/
theorem overlapping_fetch_double_refresh_cex :
    (runPollerAsync ⟨initPollerState, 0⟩ (overlapTrace.take 3)).core.timerActive = false
    ∧ (runPollerAsync ⟨initPollerState, 0⟩ (overlapTrace.take 3)).core.refreshCount = 1
    ∧ (runPollerAsync ⟨initPollerState, 0⟩ overlapTrace).core.refreshCount = 2 := by
  decide

/-- C2 (amended): a tick whose processing phase observes a terminal status
(ocr failed, extraction completed, or extraction failed) with the anchor
present cancels the timer, removes the registry entry and bumps the
refresh count by exactly one; and over any lifecycle in which every
fetch settles before the next interval fire (no overlapping in-flight
requests) the aggregate refresh fires at most once.  With overlapping
responses it can fire more than once. -/
theorem terminal_tick_stops_and_refreshes_once (st : PollerState) (data : StatusData)
    (ticks : List TickInput) (hact : st.timerActive = true) (hterm : TerminalStatus data) :
    ((pollTick st true (some data)).timerActive = false
      ∧ (pollTick st true (some data)).registered = false
      ∧ (pollTick st true (some data)).refreshCount = st.refreshCount + 1)
    ∧ (runPollerAsync ⟨initPollerState, 0⟩ (sequentialTrace ticks)).core.refreshCount ≤ 1 := by
  refine ⟨?_, ?_⟩
  swap
  · rw [runPollerAsync_sequential]
    exact (runPoller_inv ticks initPollerState ⟨fun _ => rfl, by decide⟩).2
  by_cases hp : data.ocr_status = some "processing"
  · rcases hterm with h | h | h
    · rw [hp] at h; simp at h
    · simp [pollTick, pollProcess, pollSecondChain, hact, hp, h]
    · simp [pollTick, pollProcess, pollSecondChain, hact, hp, h]
  · by_cases hf : data.ocr_status = some "failed"
    · simp [pollTick, pollProcess, hact, hp, hf]
    · rcases hterm with h | h | h
      · exact absurd h hf
      · simp [pollTick, pollProcess, pollSecondChain, hact, hp, hf, h]
      · simp [pollTick, pollProcess, pollSecondChain, hact, hp, hf, h]

/-- C2 witness: one terminal tick (extraction completed) from the initial
state, in a one-tick non-overlapping lifecycle. -/
theorem terminal_tick_witness :
    ((pollTick initPollerState true (some { extraction_status := some "completed" })).timerActive = false
      ∧ (pollTick initPollerState true (some { extraction_status := some "completed" })).registered = false
      ∧ (pollTick initPollerState true (some { extraction_status := some "completed" })).refreshCount = initPollerState.refreshCount + 1)
    ∧ (runPollerAsync ⟨initPollerState, 0⟩
        (sequentialTrace [⟨true, some { extraction_status := some "completed" }⟩])).core.refreshCount ≤ 1 :=
  terminal_tick_stops_and_refreshes_once initPollerState { extraction_status := some "completed" }
    [⟨true, some { extraction_status := some "completed" }⟩] rfl (Or.inr (Or.inl rfl))

/-- C3: false as stated.  With historical revenues `[1, 2, 3, null]` there
are 0 nulls among the first 3 positions, yet the rule counts the null at
position 3 and emits a "Revenue missing for 1 of 3" warning: the count
runs over the whole array, not the first 3 positions. -/
theorem revenue_first3_cex :
    ((((revCexExtraction.financials.getD {}).net_revenue_hist.getD []).take 3).filter (fun v => v.isNone)).length = 0
    ∧ revenueWarnings revCexExtraction =
        [⟨WarningLevel.error, "Revenue missing for 1 of 3 historical year(s). Margins and growth rates cannot be calculated."⟩] :=
  ⟨by decide, by decide⟩

/-- C3 (amended): the revenue-completeness rule counts the explicitly-null
entries of the whole historical revenue array; it emits exactly one
error warning carrying that count when it is positive, and nothing when
it is zero. -/
theorem revenue_completeness_whole_array (ext : Extraction) :
    (((revHistOf ext).filter (fun v => v.isNone)).length = 0 → revenueWarnings ext = [])
    ∧ (0 < ((revHistOf ext).filter (fun v => v.isNone)).length →
        revenueWarnings ext =
          [⟨WarningLevel.error,
            "Revenue missing for " ++ toString ((revHistOf ext).filter (fun v => v.isNone)).length ++
              " of 3 historical year(s). Margins and growth rates cannot be calculated."⟩]) := by
  unfold revenueWarnings
  constructor <;> intro h <;> simp [h]

/-- C3 witness: the length-4 array with one null. -/
theorem revenue_completeness_witness :
    0 < ((revHistOf revCexExtraction).filter (fun v => v.isNone)).length
    ∧ revenueWarnings revCexExtraction =
        [⟨WarningLevel.error,
          "Revenue missing for " ++ toString ((revHistOf revCexExtraction).filter (fun v => v.isNone)).length ++
            " of 3 historical year(s). Margins and growth rates cannot be calculated."⟩] :=
  ⟨by decide, (revenue_completeness_whole_array revCexExtraction).2 (by decide)⟩

/-- C4: for a position with non-null depreciation `d` and non-null,
nonzero EBITDA `e`, the copy-error rule fires iff `|d - e| < 0.15 * |e|`,
and what it emits is an error-level warning appearing in the rule-3
warning list. -/
theorem dep_ebitda_rule_iff (ext : Extraction) (i : ℕ) (d e : ℚ)
    (hi : i < 3)
    (hd : jsGet (depOf ext) i = some d) (he : jsGet (ebitdaOf ext) i = some e)
    (hne : e ≠ 0) :
    ((depCheckAt ext i).isSome ↔ |d - e| < 0.15 * |e|)
    ∧ ∀ w, depCheckAt ext i = some w → w.level = WarningLevel.error ∧ w ∈ depWarnings ext := by
  have hcond : (jsAbs (d - e) < jsAbs e * 0.15) ↔ (|d - e| < 0.15 * |e|) := by
    rw [jsAbs_eq_abs, jsAbs_eq_abs, mul_comm]
  constructor
  · unfold depCheckAt
    rw [hd, he]
    dsimp only
    split
    · simpa using hcond.mp (by assumption)
    · simp only [Option.isSome_none, Bool.false_eq_true, false_iff]
      exact fun hlt => (by assumption : ¬ jsAbs (d - e) < jsAbs e * 0.15) (hcond.mpr hlt)
  · intro w hw
    refine ⟨depCheckAt_level ext i w hw, List.mem_filterMap.mpr ⟨i, List.mem_range.mpr hi, hw⟩⟩

/-- C4 witness: year 1 of the spec's scenario, `|950 - 1000| = 50 < 150`. -/
theorem dep_ebitda_rule_witness :
    (0 : ℕ) < 3
    ∧ jsGet (depOf depWitnessExtraction) 0 = some 950
    ∧ jsGet (ebitdaOf depWitnessExtraction) 0 = some 1000
    ∧ (1000 : ℚ) ≠ 0
    ∧ ((depCheckAt depWitnessExtraction 0).isSome ↔ |(950 : ℚ) - 1000| < 0.15 * |(1000 : ℚ)|) :=
  ⟨by decide, by with_unfolding_all rfl, by with_unfolding_all rfl, by norm_num,
    (dep_ebitda_rule_iff depWitnessExtraction 0 950 1000 (by decide)
      (by with_unfolding_all rfl) (by with_unfolding_all rfl) (by norm_num)).1⟩

/-- C5: for a position with non-null gross profit `g`, SG&A `s` and EBITDA
`e`, the rule emits exactly the one error warning naming the 1-based year
index and both money values when `g - s > e`, and nothing otherwise. -/
theorem operating_income_rule (ext : Extraction) (i : ℕ) (g s e : ℚ)
    (hi : i < 3)
    (hg : jsGet (gpOf ext) i = some g) (hs : jsGet (sgaOf ext) i = some s)
    (he : jsGet (ebitdaOf ext) i = some e) :
    (g - s > e → oiCheckAt ext i =
      some ⟨WarningLevel.error,
        "Year " ++ toString (i + 1) ++ ": Operating Income (" ++ fmtMoney (some (g - s)) ++
          ") exceeds EBITDA (" ++ fmtMoney (some e) ++ ") — rows may be swapped"⟩)
    ∧ (¬ (g - s > e) → oiCheckAt ext i = none)
    ∧ ∀ w, oiCheckAt ext i = some w → w.level = WarningLevel.error ∧ w ∈ oiWarnings ext := by
  refine ⟨?_, ?_, ?_⟩
  · intro h
    unfold oiCheckAt
    rw [hg, hs, he]
    dsimp only
    rw [if_pos h]
  · intro h
    unfold oiCheckAt
    rw [hg, hs, he]
    dsimp only
    rw [if_neg h]
  · intro w hw
    refine ⟨oiCheckAt_level ext i w hw, List.mem_filterMap.mpr ⟨i, List.mem_range.mpr hi, hw⟩⟩

/-- C5 witness: gross profit 100, SG&A 10, EBITDA 50 in year 1. -/
theorem operating_income_rule_witness :
    (100 : ℚ) - 10 > 50
    ∧ oiCheckAt oiWitnessExtraction 0 =
      some ⟨WarningLevel.error,
        "Year " ++ toString (0 + 1) ++ ": Operating Income (" ++ fmtMoney (some ((100 : ℚ) - 10)) ++
          ") exceeds EBITDA (" ++ fmtMoney (some (50 : ℚ)) ++ ") — rows may be swapped"⟩ :=
  ⟨by norm_num,
    (operating_income_rule oiWitnessExtraction 0 100 10 50 (by decide)
      (by with_unfolding_all rfl) (by with_unfolding_all rfl) (by with_unfolding_all rfl)).1 (by norm_num)⟩

/-- C6: false as stated.  The tag `derived:flat_last_known` begins with
`derived`, yet a money cell renders it plain — identical to a cell with
no tag and with no "(est.)" marker; only capex cells apply the tooltip
table. -/
theorem derived_tag_rendering_cex :
    "derived:flat_last_known" = "derived" ++ ":flat_last_known"
    ∧ moneyCell (some 5) (some "derived:flat_last_known") = "<td>$5K</td>"
    ∧ moneyCell (some 5) none = "<td>$5K</td>" :=
  ⟨by decide, by with_unfolding_all rfl, by with_unfolding_all rfl⟩

/-- C6 (amended): capex cells render any non-empty, non-`direct` tag with
an "(est.)" badge whose tooltip comes from the five-entry table with a
generic fallback for unrecognized tags; money cells render every tag
other than the exact string `derived` the same as an absent tag. -/
theorem provenance_rendering_amended (v : ℚ) (s : String)
    (h1 : s ≠ "") (h2 : s ≠ "direct") :
    (capexCell (some v) (some s) =
      if v < 0 then
        "<td class=\"negative\">" ++ fmtMoney (some v) ++
          (" <span class=\"derived-badge\" title=\"" ++ getCapexMethodTooltip s ++ "\">(est.)</span>") ++ "</td>"
      else
        "<td>" ++ fmtMoney (some v) ++
          (" <span class=\"derived-badge\" title=\"" ++ getCapexMethodTooltip s ++ "\">(est.)</span>") ++ "</td>")
    ∧ (s ≠ "derived" → moneyCell (some v) (some s) = moneyCell (some v) none)
    ∧ getCapexMethodTooltip "derived:strange_new_method" = "Estimated value — not directly from document" := by
  refine ⟨?_, ?_, by decide⟩
  · unfold capexCell
    dsimp only
    rw [if_neg (by simp [jsFalsy, h1, h2])]
    rfl
  · intro h3
    simp [moneyCell, h3]

/-- C6 witness: a capex cell with the flat-last-known tag gets the badge
and its table tooltip. -/
theorem provenance_rendering_witness :
    capexCell (some 5) (some "derived:flat_last_known") =
      "<td>$5K <span class=\"derived-badge\" title=\"Estimated using most recent known CapEx value (flat)\">(est.)</span></td>" :=
  ((provenance_rendering_amended 5 "derived:flat_last_known" (by decide) (by decide)).1).trans
    (by with_unfolding_all rfl)

/-- C7: false as stated.  When the anchor is gone at tick time the timer
is cancelled, but the `activePollers` entry is not removed: the handle
stays registered. -/
theorem anchor_vanish_registry_cex :
    (pollTick initPollerState false
        (some { ocr_status := some "completed", extraction_status := some "completed" })).timerActive = false
    ∧ (pollTick initPollerState false
        (some { ocr_status := some "completed", extraction_status := some "completed" })).registered = true := by
  decide

/-- C7 (amended): when the anchor is gone at tick time the poller stops
silently — the timer is cancelled and nothing else changes: no label
write, no refresh, and the registry entry is left in place. -/
theorem anchor_vanish_stops_silently (st : PollerState) (data : StatusData)
    (hact : st.timerActive = true) :
    pollTick st false (some data) = { st with timerActive := false } := by
  simp [pollTick, pollProcess, hact]

/-- C7 witness: an anchorless tick on a fresh poller. -/
theorem anchor_vanish_witness :
    pollTick initPollerState false (some { ocr_status := some "processing" }) =
      { initPollerState with timerActive := false } :=
  anchor_vanish_stops_silently initPollerState { ocr_status := some "processing" } rfl

/-- C8: provenance lookup prefers the indexed key, then the bare key, and
otherwise yields `none` (treated as directly sourced downstream); with
sources `capex_hist_1 = derived:flat_last_known` lookup at index 1 finds
the tag and at index 0 finds nothing. -/
theorem getSource_precedence (src : List (String × String)) (key : String) (i : ℕ) :
    (∀ v, src.lookup (key ++ "_" ++ toString i) = some v → v ≠ "" →
      getSource (some src) key i = some v)
    ∧ (src.lookup (key ++ "_" ++ toString i) = none →
        ∀ w, src.lookup key = some w → w ≠ "" → getSource (some src) key i = some w)
    ∧ (src.lookup (key ++ "_" ++ toString i) = none → src.lookup key = none →
        getSource (some src) key i = none)
    ∧ getSource (some [("capex_hist_1", "derived:flat_last_known")]) "capex_hist" 1 = some "derived:flat_last_known"
    ∧ getSource (some [("capex_hist_1", "derived:flat_last_known")]) "capex_hist" 0 = none := by
  refine ⟨?_, ?_, ?_, by decide, by decide⟩
  · intro v hv hne
    simp [getSource, jsOrOpt, jsFalsy, hv, hne]
  · intro hnone w hw hne
    simp [getSource, jsOrOpt, jsFalsy, hnone, hw, hne]
  · intro h1 h2
    simp [getSource, jsOrOpt, jsFalsy, h1, h2]

/-- C8 witness: the indexed capex key at index 1. -/
theorem getSource_precedence_witness :
    getSource (some [("capex_hist_1", "derived:flat_last_known")]) "capex_hist" 1 = some "derived:flat_last_known" :=
  (getSource_precedence [("capex_hist_1", "derived:flat_last_known")] "capex_hist" 1).1
    "derived:flat_last_known" (by decide) (by decide)

/-- C9: the analyzer is a total function of the extraction: a year with an
absent or null required input produces no rule-2/rule-3 warning for that
year, an extraction without `financials` only ever yields the provenance
summary, and the fully empty extraction yields no warnings at all. -/
theorem analyzer_skips_missing_inputs (ext : Extraction) (i : ℕ) :
    ((jsGet (gpOf ext) i = none ∨ jsGet (sgaOf ext) i = none ∨ jsGet (ebitdaOf ext) i = none) →
      oiCheckAt ext i = none)
    ∧ ((jsGet (depOf ext) i = none ∨ jsGet (ebitdaOf ext) i = none) → depCheckAt ext i = none)
    ∧ (ext.financials = none → integrityWarnings ext = provenanceWarnings ext)
    ∧ integrityWarnings {} = [] := by
  refine ⟨?_, ?_, ?_, by decide⟩
  · intro h
    unfold oiCheckAt
    rcases hg : jsGet (gpOf ext) i with _ | g <;> rcases hs : jsGet (sgaOf ext) i with _ | s <;>
      rcases he : jsGet (ebitdaOf ext) i with _ | e <;> simp_all
  · intro h
    unfold depCheckAt
    rcases hd : jsGet (depOf ext) i with _ | d <;> rcases he : jsGet (ebitdaOf ext) i with _ | e <;>
      simp_all
  · intro hfin
    have hfe : finOf ext = {} := by simp [finOf, hfin]
    have hrev : revHistOf ext = [] := by simp [revHistOf, hfe]
    have hgp : gpOf ext = [] := by simp [gpOf, hfe]
    have hdep : depOf ext = [] := by simp [depOf, hfe]
    have h1 : revenueWarnings ext = [] := by simp [revenueWarnings, hrev]
    have h2 : oiWarnings ext = [] := by
      rw [oiWarnings, List.filterMap_eq_nil_iff]
      intro a _
      simp [oiCheckAt, hgp, jsGet]
    have h3 : depWarnings ext = [] := by
      rw [depWarnings, List.filterMap_eq_nil_iff]
      intro a _
      simp [depCheckAt, hdep, jsGet]
    simp [integrityWarnings, h1, h2, h3]

/-- C9 witness: the empty extraction skips every rule. -/
theorem analyzer_skips_witness :
    oiCheckAt {} 0 = none ∧ depCheckAt {} 0 = none
    ∧ integrityWarnings { financials := none } = provenanceWarnings { financials := none } :=
  ⟨(analyzer_skips_missing_inputs {} 0).1 (Or.inl (by decide)),
   (analyzer_skips_missing_inputs {} 0).2.1 (Or.inl (by decide)),
   (analyzer_skips_missing_inputs { financials := none } 0).2.2.1 rfl⟩

/-- C10: the warning sequence is the four rule blocks in fixed order, of
lengths at most 1, 3, 3 and 1 (so at most 8 in total); every warning of
rules 1-3 is error-level and the provenance summary alone is info-level. -/
theorem warning_sequence_shape (ext : Extraction) :
    integrityWarnings ext =
      revenueWarnings ext ++ oiWarnings ext ++ depWarnings ext ++ provenanceWarnings ext
    ∧ (revenueWarnings ext).length ≤ 1
    ∧ (oiWarnings ext).length ≤ 3
    ∧ (depWarnings ext).length ≤ 3
    ∧ (provenanceWarnings ext).length ≤ 1
    ∧ (integrityWarnings ext).length ≤ 8
    ∧ (∀ w ∈ revenueWarnings ext, w.level = WarningLevel.error)
    ∧ (∀ w ∈ oiWarnings ext, w.level = WarningLevel.error)
    ∧ (∀ w ∈ depWarnings ext, w.level = WarningLevel.error)
    ∧ (∀ w ∈ provenanceWarnings ext, w.level = WarningLevel.info) := by
  have hrev : (revenueWarnings ext).length ≤ 1 := by
    unfold revenueWarnings
    dsimp only
    split <;> simp
  have hoi : (oiWarnings ext).length ≤ 3 :=
    le_trans (List.length_filterMap_le _ _) (by simp)
  have hdep : (depWarnings ext).length ≤ 3 :=
    le_trans (List.length_filterMap_le _ _) (by simp)
  have hprov : (provenanceWarnings ext).length ≤ 1 := by
    unfold provenanceWarnings
    dsimp only
    split <;> simp
  refine ⟨rfl, hrev, hoi, hdep, hprov, ?_, ?_, ?_, ?_, ?_⟩
  · have hlen : (integrityWarnings ext).length =
        (revenueWarnings ext).length + (oiWarnings ext).length +
          (depWarnings ext).length + (provenanceWarnings ext).length := by
      simp [integrityWarnings]
      omega
    omega
  · intro w hw
    unfold revenueWarnings at hw
    dsimp only at hw
    split at hw <;> simp_all
  · intro w hw
    rcases List.mem_filterMap.mp hw with ⟨a, _, ha⟩
    exact oiCheckAt_level ext a w ha
  · intro w hw
    rcases List.mem_filterMap.mp hw with ⟨a, _, ha⟩
    exact depCheckAt_level ext a w ha
  · intro w hw
    unfold provenanceWarnings at hw
    dsimp only at hw
    split at hw <;> simp_all

/-- C10 witness: the bound evaluated on the empty extraction. -/
theorem warning_sequence_witness :
    (integrityWarnings ({} : Extraction)).length ≤ 8 :=
  (warning_sequence_shape {}).2.2.2.2.2.1

end App
